import Mathlib

/-!
Shallow embedding of `src/main.py` (CSV → JSON batch converter).

Python strings are modelled as Lean `String`/`List Char`; machine behaviour
of the CPython standard library calls used by the program (`str.strip`,
`int`, `datetime.strptime`/`strftime` with format `%d/%m/%Y` on glibc,
`csv.Sniffer.sniff`, `json.dump`) is embedded from their documented and
observed semantics.  Exceptions are modelled with `Except`/`Option`;
command-line runs with an explicit environment record.
-/

/-- Python `str.isspace` on the characters `str.strip()` removes: ASCII
whitespace 0x09–0x0D and 0x20, the C1/Unicode whitespace code points. -/
def pyIsSpace (c : Char) : Bool :=
  let n := c.toNat
  (9 ≤ n && n ≤ 13) || n == 32 || (28 ≤ n && n ≤ 31) || n == 0x85 || n == 0xA0 ||
  n == 0x1680 || (0x2000 ≤ n && n ≤ 0x200A) || n == 0x2028 || n == 0x2029 ||
  n == 0x202F || n == 0x205F || n == 0x3000

/-- Python `str.strip()` on a character list: drop whitespace from both ends. -/
def stripChars (cs : List Char) : List Char :=
  ((cs.dropWhile pyIsSpace).reverse.dropWhile pyIsSpace).reverse

/-- Python `str.strip()`. -/
def pyStrip (s : String) : String :=
  String.mk (stripChars s.data)

/-- ASCII decimal digit test. -/
def isAsciiDigit (c : Char) : Bool :=
  48 ≤ c.toNat && c.toNat ≤ 57

/-- Numeric value of an ASCII digit character. -/
def digitVal (c : Char) : Nat :=
  c.toNat - 48

/-- Character for a decimal digit value. -/
def digitChar (n : Nat) : Char :=
  Char.ofNat (48 + n)

/-- Digits of Python's `int()` after the first digit: a `digitpart` is
`digit (["_"] digit)*`, i.e. single underscores are allowed between digits. -/
def pyDigitsRest : List Char → Nat → Option Nat
  | [], acc => some acc
  | c :: rest, acc =>
      if c = '_' then
        match rest with
        | [] => none
        | c2 :: rest2 =>
            if isAsciiDigit c2 then pyDigitsRest rest2 (acc * 10 + digitVal c2)
            else none
      else if isAsciiDigit c then pyDigitsRest rest (acc * 10 + digitVal c)
      else none

/-- A full `digitpart` of Python's `int()` grammar: at least one digit,
single underscores allowed between digits. -/
def pyDigits : List Char → Option Nat
  | c :: rest => if isAsciiDigit c then pyDigitsRest rest (digitVal c) else none
  | [] => none

/-- Python `int(s)` (base 10) for ASCII input: strip whitespace, optional
sign, decimal digits with optional single underscores between digits.
`none` models `ValueError`.  (Non-ASCII Unicode decimal digits, accepted by
CPython, are outside the modelled input space.) -/
def pyIntOfString (s : String) : Option Int :=
  match stripChars s.data with
  | [] => none
  | c :: rest =>
      if c = '+' then (pyDigits rest).map Int.ofNat
      else if c = '-' then (pyDigits rest).map (fun n => -(n : Int))
      else (pyDigits (c :: rest)).map Int.ofNat

/-- `parse_int` from `src/main.py`: strip, return `default` on empty string,
otherwise `int(value)` with any exception swallowed into `default`. -/
def parse_int (value : String) (default : Int) : Int :=
  let v := pyStrip value
  if v = "" then default
  else
    match pyIntOfString v with
    | some n => n
    | none => default

/-! ## `datetime.strptime(value, "%d/%m/%Y")` / `strftime("%d/%m/%Y")`

CPython `_strptime` compiles `"%d/%m/%Y"` to the regex
`(?P<d>3[0-1]|[1-2]\d|0[1-9]|[1-9]| [1-9])/(?P<m>1[0-2]|0[1-9]|[1-9])/(?P<Y>\d\d\d\d)`
and requires the whole string to match.  Since no alternative can contain
`/`, a whole-string match is exactly: split on `/` into three parts, each
part matching its group. -/

/-- The regex class `[1-9]`. -/
def isDigit19 (c : Char) : Bool :=
  49 ≤ c.toNat && c.toNat ≤ 57

/-- The `%d` group `3[0-1]|[1-2]\d|0[1-9]|[1-9]| [1-9]`: returns the day
value on a full match of the part (the whole part must be consumed, since
the following literal `/` cannot match a digit). -/
def dayVal : List Char → Option Nat
  | [a, b] =>
      if a = '3' then (if b = '0' || b = '1' then some (30 + digitVal b) else none)
      else if (a = '1' || a = '2') && isAsciiDigit b then
        some (digitVal a * 10 + digitVal b)
      else if a = '0' && isDigit19 b then some (digitVal b)
      else if a = ' ' && isDigit19 b then some (digitVal b)
      else none
  | [a] => if isDigit19 a then some (digitVal a) else none
  | _ => none

/-- The `%m` group `1[0-2]|0[1-9]|[1-9]`: returns the month value on a full
match of the part. -/
def monthVal : List Char → Option Nat
  | [a, b] =>
      if a = '1' then (if b = '0' || b = '1' || b = '2' then some (10 + digitVal b) else none)
      else if a = '0' && isDigit19 b then some (digitVal b)
      else none
  | [a] => if isDigit19 a then some (digitVal a) else none
  | _ => none

/-- The `%Y` group `\d\d\d\d`: exactly four digits. -/
def yearVal : List Char → Option Nat
  | [a, b, c, d] =>
      if isAsciiDigit a && isAsciiDigit b && isAsciiDigit c && isAsciiDigit d then
        some (digitVal a * 1000 + digitVal b * 100 + digitVal c * 10 + digitVal d)
      else none
  | _ => none

/-- Split a character list on `/` (like `re` splitting the match into the
three groups; the group regexes cannot contain `/`). -/
def splitSlash : List Char → List (List Char)
  | [] => [[]]
  | c :: rest =>
      if c = '/' then [] :: splitSlash rest
      else
        match splitSlash rest with
        | [] => [[c]]
        | p :: ps => (c :: p) :: ps

/-- `datetime.strptime(v, "%d/%m/%Y")` seen as a pure parser: the whole
string must be day `/` month `/` four-digit year. Returns `(d, m, y)`. -/
def strptimeDMY (cs : List Char) : Option (Nat × Nat × Nat) :=
  match splitSlash cs with
  | [a, b, c] =>
      match dayVal a, monthVal b, yearVal c with
      | some d, some m, some y => some (d, m, y)
      | _, _, _ => none
  | _ => none

/-- Gregorian leap year, as in `datetime`. -/
def isLeap (y : Nat) : Bool :=
  y % 4 == 0 && (y % 100 != 0 || y % 400 == 0)

/-- Days in a month, as in `datetime`. -/
def daysInMonth (y m : Nat) : Nat :=
  if m = 2 then (if isLeap y then 29 else 28)
  else if m = 4 || m = 6 || m = 9 || m = 11 then 30
  else 31

/-- `datetime.date(y, m, d)` construction succeeds: `MINYEAR = 1 ≤ y`
(`y ≤ 9999` is forced by the four-digit regex) and `1 ≤ d ≤` days in month
(`1 ≤ m ≤ 12` is forced by the `%m` regex). -/
def dateValid (y m d : Nat) : Bool :=
  1 ≤ y && 1 ≤ d && d ≤ daysInMonth y m

/-- Decimal digits of `n`, most significant first, fuel-driven so that the
definition is structural.  `natDecChars (n+1) n` is the full decimal form. -/
def natDecChars : Nat → Nat → List Char
  | 0, _ => []
  | fuel + 1, n =>
      if n < 10 then [digitChar n]
      else natDecChars fuel (n / 10) ++ [digitChar (n % 10)]

/-- glibc `printf("%02d")`, used by `strftime` for `%d` and `%m`:
zero-padded to width 2. -/
def pad2 (n : Nat) : List Char :=
  if n < 10 then ['0', digitChar n] else natDecChars (n + 1) n

/-- glibc `strftime` `%Y`: the year as an UNPADDED decimal number (observed:
`date(123,3,5).strftime("%d/%m/%Y") = "05/03/123"` on CPython/glibc). -/
def fmtYear (y : Nat) : List Char :=
  natDecChars (y + 1) y

/-- `d.strftime("%d/%m/%Y")` for a date with fields `d`, `m`, `y`. -/
def formatDMY (d m y : Nat) : String :=
  String.mk (pad2 d ++ '/' :: (pad2 m ++ '/' :: fmtYear y))

/-- `parse_date_ddmmyyyy` from `src/main.py`: strip; empty → `""`;
`strptime`+`date` construction failure → `""`; otherwise re-render the date
with `strftime("%d/%m/%Y")`. -/
def parse_date_ddmmyyyy (value : String) : String :=
  let v := stripChars value.data
  if v = [] then ""
  else
    match strptimeDMY v with
    | some (d, m, y) => if dateValid y m d then formatDMY d m y else ""
    | none => ""

example : parse_date_ddmmyyyy "5/3/2024" = "05/03/2024" := by decide
example : parse_date_ddmmyyyy "05/03/2024" = "05/03/2024" := by decide
example : parse_date_ddmmyyyy "31/02/2024" = "" := by decide
example : parse_date_ddmmyyyy "29/02/2024" = "29/02/2024" := by decide
example : parse_date_ddmmyyyy "29/02/2023" = "" := by decide
example : parse_date_ddmmyyyy "05/03/0123" = "05/03/123" := by decide
example : parse_date_ddmmyyyy "00/01/2024" = "" := by decide
example : parse_date_ddmmyyyy "01/01/0000" = "" := by decide
example : parse_date_ddmmyyyy "1/1/0001" = "01/01/1" := by decide
example : parse_date_ddmmyyyy " 5/3/2024" = "05/03/2024" := by decide
example : parse_date_ddmmyyyy "05/03/24" = "" := by decide
example : parse_date_ddmmyyyy "05/03/20245" = "" := by decide
example : parse_date_ddmmyyyy "5/ 3/2024" = "" := by decide
example : parse_date_ddmmyyyy "31/12/9999" = "31/12/9999" := by decide
example : parse_date_ddmmyyyy "30/2/2024" = "" := by decide
example : parse_date_ddmmyyyy "" = "" := by decide
example : parse_date_ddmmyyyy "  " = "" := by decide
/-! ## Rows, documents and `carregar` -/

/-- A `csv.DictReader` row: ordered column name → raw value.  A value may be
`none` (Python `None`, the `restval` for short rows). -/
abbrev Row := List (String × Option String)

/-- An emitted document: ordered key → string value (a Python dict literal
with string values, in insertion order). -/
abbrev Doc := List (String × String)

/-- The per-row accessor `get = lambda k: (row.get(k) or "").strip()`:
missing key or `None` or `""` all collapse to `""`, then strip. -/
def rowGet (row : Row) (k : String) : String :=
  pyStrip (match row.lookup k with
    | some (some v) => v
    | _ => "")

/-- The intermediate dict `local` built in `carregar` (fixed string keys,
modelled as a structure). -/
structure LocalRec where
  cedente : String
  pagador : String
  valor : String
  logradouro : String
  numero : Int
deriving DecidableEq

/-- The `local = {...}` dict of `carregar`: note `numero` reads the same
raw `valor` column as the amount string. -/
def localOf (row : Row) : LocalRec :=
  { cedente := rowGet row "cedente"
    pagador := rowGet row "pagador"
    valor := rowGet row "valor"
    logradouro := rowGet row ""
    numero := parse_int (rowGet row "valor") 0 }

/-- One iteration of the `for row in reader` loop body of `carregar`:
`oid_hex` (the generated identifier) and `class_name` are in scope but the
active `doc` literal uses neither.  Commented-out fields of the source
(`_id`, `nome`, …, `_class`, `numeroBoletimOriginal`, `original`) are
absent. -/
def transformRow (oid_hex : String) (class_name : String) (row : Row) : Doc :=
  let data_str := parse_date_ddmmyyyy (rowGet row "vencimento")
  let localRec := localOf row
  [("cedente", localRec.cedente),
   ("pagador", localRec.pagador),
   ("valor", localRec.valor),
   ("vencimento", data_str)]

/-- The row loop of `carregar`: one document appended per row, in order;
the `i`-th iteration's call to `make_objectid_hex()` is modelled by
`oidGen i` (its randomness is the environment's choice of `oidGen`). -/
def carregar_docs (oidGen : Nat → String) (class_name : String) :
    Nat → List Row → List Doc
  | _, [] => []
  | i, row :: rest =>
      transformRow (oidGen i) class_name row ::
        carregar_docs oidGen class_name (i + 1) rest

/-! ## Delimiter sniffing (lines 74–81 of `src/main.py`) -/

/-- The candidate list passed to `csv.Sniffer().sniff`: `[",", ";", "\t", "|"]`. -/
def candidateDelims : List Char := [',', ';', '\t', '|']

/-- Lines 76–81: `delimiter = "\t"`, then `try` the sniffer and keep its
delimiter, `except` anything and fall back to `"\t"`.  The sniffer itself
(`csv.Sniffer().sniff` with the candidate list) is an environment function
returning either a delimiter or an error (`csv.Error`/any exception). -/
def detect_delimiter (sniff : String → Except String Char) (sample : String) : Char :=
  match sniff sample with
  | Except.ok c => c
  | Except.error _ => '\t'

/-! ## JSON serialization (`json.dump(lista, f, ensure_ascii=False, indent=2)`) -/

/-- Lowercase hex digit. -/
def hexDigit (n : Nat) : Char :=
  if n < 10 then Char.ofNat (48 + n) else Char.ofNat (87 + n)

/-- JSON string escaping with `ensure_ascii=False`: only `"`, `\` and
control characters below 0x20 are escaped; other characters (including
non-ASCII) are kept literally. -/
def jsonEscapeChar (c : Char) : List Char :=
  if c = '"' then ['\\', '"']
  else if c = '\\' then ['\\', '\\']
  else if c = '\n' then ['\\', 'n']
  else if c = '\t' then ['\\', 't']
  else if c = '\r' then ['\\', 'r']
  else if c.toNat = 8 then ['\\', 'b']
  else if c.toNat = 12 then ['\\', 'f']
  else if c.toNat < 32 then
    ['\\', 'u', '0', '0', hexDigit (c.toNat / 16), hexDigit (c.toNat % 16)]
  else [c]

/-- A JSON string literal. -/
def jsonStr (s : String) : String :=
  "\"" ++ String.mk (s.data.map jsonEscapeChar).flatten ++ "\""

/-- One document rendered by `json.dump` with `indent=2`, at depth 1. -/
def dumpDoc (doc : Doc) : String :=
  match doc with
  | [] => "\x7b\x7d"
  | _ =>
      "\x7b\n" ++
        String.intercalate ",\n"
          (doc.map (fun kv => "    " ++ jsonStr kv.1 ++ ": " ++ jsonStr kv.2)) ++
      "\n  \x7d"

/-- `json.dump(lista, f, ensure_ascii=False, indent=2)` as a string. -/
def pyJsonDump (docs : List Doc) : String :=
  match docs with
  | [] => "[]"
  | _ =>
      "[\n" ++
        String.intercalate ",\n" (docs.map (fun d => "  " ++ dumpDoc d)) ++
      "\n]"

/-! ## Errors, environment and `main` -/

/-- Python exceptions as `main` distinguishes them: `FileNotFoundError`
(caught at line 187) versus every other `Exception` (line 190).  The
payload is `str(e)`. -/
inductive PyError where
  | fileNotFound (msg : String)
  | other (msg : String)
deriving DecidableEq

/-- The effectful surroundings of one run: does a path exist
(`Path.exists`), what rows does opening + sniffing + `DictReader` produce
for it (or which exception), does opening/writing the output succeed (a
missing parent directory raises `FileNotFoundError` here), and which
identifier does the `i`-th `make_objectid_hex()` call return. -/
structure Env where
  pathExists : String → Bool
  readRows : String → Except PyError (List Row)
  writeResult : String → Except PyError Unit
  oidGen : Nat → String

/-- The message of the `FileNotFoundError` raised by `carregar`. -/
def fileNotFoundMsg (caminho : String) : String :=
  "Arquivo não encontrado: " ++ caminho

/-- `carregar(caminho_csv, class_name)`: raise `FileNotFoundError` when the
path does not exist, otherwise read the rows (any exception propagates) and
transform each row in order. -/
def carregar_run (env : Env) (caminho_csv : String) (class_name : String) :
    Except PyError (List Doc) :=
  if env.pathExists caminho_csv = false then
    Except.error (PyError.fileNotFound (fileNotFoundMsg caminho_csv))
  else
    match env.readRows caminho_csv with
    | Except.error e => Except.error e
    | Except.ok rows => Except.ok (carregar_docs env.oidGen class_name 0 rows)

/-- `DEFAULT_CLASS` from `src/main.py`. -/
def DEFAULT_CLASS : String := "com.br.td.utfpr.edu.tsi.cadastro_usuarios.model"

/-- The two usage lines printed on a bad argument count. -/
def usageLines : List String :=
  ["Uso: python carregar_boletins.py [input.csv output.json [class_name]]",
   "Se não informado usa: input='furtos.csv' output='furtos.json'"]

/-- Argument handling of `main` (lines 165–182): `len(argv)` of 1, 3 or 4
select (input, output, class label); anything else is a usage error. -/
def parseArgs (argv : List String) : Option (String × String × String) :=
  match argv with
  | [_] => some ("furtos.csv", "furtos.json", DEFAULT_CLASS)
  | [_, i, o] => some (i, o, DEFAULT_CLASS)
  | [_, i, o, c] => some (i, o, c)
  | _ => none

/-- The log line printed at the end of `carregar`. -/
def extractionMsg (n : Nat) : String :=
  "Extração CSV concluída (" ++ toString n ++ " registros)."

/-- The log line printed by `carregar_json`. -/
def loadMsg (output : String) : String :=
  "Carregamento JSON concluído -> " ++ output

/-- Observable outcome of one `main(argv)` run: the returned exit code, the
lines printed in order, and the successful whole-file writes (path and
document list). -/
structure RunResult where
  exitCode : Int
  printed : List String
  written : List (String × List Doc)
deriving DecidableEq

/-- `main(argv)` (lines 163–194): select arguments, run
`carregar`/`carregar_json` under the top-level `try`, map
`FileNotFoundError` to exit 2, any other exception to exit 3 (prefixed
`"Erro: "` by `print("Erro:", e)`), success to exit 0. -/
def mainRun (env : Env) (argv : List String) : RunResult :=
  match parseArgs argv with
  | none => ⟨1, usageLines, []⟩
  | some (input_csv, output_json, class_name) =>
      match carregar_run env input_csv class_name with
      | Except.error (PyError.fileNotFound msg) => ⟨2, [msg], []⟩
      | Except.error (PyError.other msg) => ⟨3, ["Erro: " ++ msg], []⟩
      | Except.ok lista =>
          match env.writeResult output_json with
          | Except.error (PyError.fileNotFound msg) =>
              ⟨2, [extractionMsg lista.length, msg], []⟩
          | Except.error (PyError.other msg) =>
              ⟨3, [extractionMsg lista.length, "Erro: " ++ msg], []⟩
          | Except.ok _ =>
              ⟨0, [extractionMsg lista.length, loadMsg output_json],
               [(output_json, lista)]⟩

/-! ## Spec-side definitions (for refinement claims, from the spec's words) -/

/-- Spec wording: a string "exactly matching `DD/MM/YYYY`" — two digits,
slash, two digits, slash, four digits. -/
def specMatchesDDMMYYYY (s : String) : Bool :=
  match s.data with
  | [a, b, s1, c, d, s2, e, f, g, h] =>
      isAsciiDigit a && isAsciiDigit b && s1 = '/' &&
      isAsciiDigit c && isAsciiDigit d && s2 = '/' &&
      isAsciiDigit e && isAsciiDigit f && isAsciiDigit g && isAsciiDigit h
  | _ => false

/-- Spec-side base-10 value of a digit string (for the claim "valid
base-10 numeric text yields the parsed integer"). -/
def decValue (ds : List Char) : Nat :=
  ds.foldl (fun acc c => acc * 10 + digitVal c) 0

example : parse_int "1_0" 0 = 10 := by decide
example : parse_int "_1" 7 = 7 := by decide
example : parse_int "1_" 7 = 7 := by decide
example : parse_int "1__0" 7 = 7 := by decide
example : parse_int "+5" 0 = 5 := by decide
example : parse_int "-7" 0 = -7 := by decide
example : parse_int "+ 5" 9 = 9 := by decide
example : parse_int "  42  " 0 = 42 := by decide
example : parse_int "0x10" 3 = 3 := by decide
example : parse_int "010" 0 = 10 := by decide
example : parse_int "" 5 = 5 := by decide
example : parse_int "150.00" 0 = 0 := by decide

/-! ## Helper lemmas -/

theorem carregar_docs_length (g : Nat → String) (cn : String) (k : Nat)
    (rows : List Row) :
    (carregar_docs g cn k rows).length = rows.length := by
  induction rows generalizing k with
  | nil => rfl
  | cons r rs ih => simp [carregar_docs, ih]

theorem carregar_docs_getElem (g : Nat → String) (cn : String) (k : Nat)
    (rows : List Row) (i : Nat) :
    (carregar_docs g cn k rows)[i]? =
      (rows[i]?).map (fun row => transformRow (g (k + i)) cn row) := by
  induction rows generalizing k i with
  | nil => simp [carregar_docs]
  | cons r rs ih =>
      cases i with
      | zero => simp [carregar_docs]
      | succ j =>
          have h := ih (k + 1) j
          simpa [carregar_docs, Nat.add_assoc, Nat.add_comm 1 j] using h

theorem transformRow_congr (o1 o2 c1 c2 : String) (row : Row) :
    transformRow o1 c1 row = transformRow o2 c2 row := rfl

theorem carregar_docs_congr (g1 g2 : Nat → String) (c1 c2 : String) (k : Nat)
    (rows : List Row) :
    carregar_docs g1 c1 k rows = carregar_docs g2 c2 k rows := by
  induction rows generalizing k with
  | nil => rfl
  | cons r rs ih =>
      have h1 : transformRow (g1 k) c1 r = transformRow (g2 k) c2 r := rfl
      simp [carregar_docs, h1, ih (k + 1)]

theorem carregar_run_congr (pe : String → Bool) (rr : String → Except PyError (List Row))
    (wr : String → Except PyError Unit) (g1 g2 : Nat → String) (c1 c2 i : String) :
    carregar_run ⟨pe, rr, wr, g1⟩ i c1 = carregar_run ⟨pe, rr, wr, g2⟩ i c2 := by
  unfold carregar_run
  dsimp only
  cases pe i
  · rfl
  · cases rr i with
    | error e => rfl
    | ok rows => simp [carregar_docs_congr g1 g2 c1 c2 0 rows]

theorem mainRun_congr (pe : String → Bool) (rr : String → Except PyError (List Row))
    (wr : String → Except PyError Unit) (g1 g2 : Nat → String) (argv : List String) :
    mainRun ⟨pe, rr, wr, g1⟩ argv = mainRun ⟨pe, rr, wr, g2⟩ argv := by
  unfold mainRun
  cases hp : parseArgs argv with
  | none => rfl
  | some t =>
      obtain ⟨i, o, c⟩ := t
      dsimp only
      rw [carregar_run_congr pe rr wr g1 g2 c c i]

theorem mainRun_class_congr (env : Env) (p i o c1 c2 : String) :
    mainRun env [p, i, o, c1] = mainRun env [p, i, o, c2] := by
  obtain ⟨pe, rr, wr, g⟩ := env
  unfold mainRun
  simp only [parseArgs]
  rw [carregar_run_congr pe rr wr g g c1 c2 i]

theorem parseArgs_none_iff (argv : List String) :
    parseArgs argv = none ↔
      ¬(argv.length = 1 ∨ argv.length = 3 ∨ argv.length = 4) := by
  rcases argv with _ | ⟨a, _ | ⟨b, _ | ⟨c, _ | ⟨d, _ | ⟨e, rest⟩⟩⟩⟩⟩
  · simp [parseArgs]
  · simp [parseArgs]
  · simp [parseArgs]
  · simp [parseArgs]
  · simp [parseArgs]
  · simp only [parseArgs, List.length_cons, true_iff]
    omega

theorem mainRun_eq_of_some (env : Env) (argv : List String) (i o c : String)
    (hp : parseArgs argv = some (i, o, c)) :
    mainRun env argv =
      (match carregar_run env i c with
       | Except.error (PyError.fileNotFound msg) => ⟨2, [msg], []⟩
       | Except.error (PyError.other msg) => ⟨3, ["Erro: " ++ msg], []⟩
       | Except.ok lista =>
           match env.writeResult o with
           | Except.error (PyError.fileNotFound msg) =>
               ⟨2, [extractionMsg lista.length, msg], []⟩
           | Except.error (PyError.other msg) =>
               ⟨3, [extractionMsg lista.length, "Erro: " ++ msg], []⟩
           | Except.ok _ =>
               ⟨0, [extractionMsg lista.length, loadMsg o], [(o, lista)]⟩) := by
  simp [mainRun, hp]

theorem carregar_run_not_exists (env : Env) (i c : String)
    (h : env.pathExists i = false) :
    carregar_run env i c =
      Except.error (PyError.fileNotFound (fileNotFoundMsg i)) := by
  simp [carregar_run, h]

theorem isAsciiDigit_not_space (c : Char) (h : isAsciiDigit c = true) :
    pyIsSpace c = false := by
  simp only [isAsciiDigit, Bool.and_eq_true, decide_eq_true_eq] at h
  rw [Bool.eq_false_iff]
  intro habs
  simp only [pyIsSpace, Bool.or_eq_true, Bool.and_eq_true, decide_eq_true_eq,
    beq_iff_eq] at habs
  omega

theorem dropWhile_of_no_space (l : List Char)
    (hl : ∀ c ∈ l, pyIsSpace c = false) : l.dropWhile pyIsSpace = l := by
  cases l with
  | nil => rfl
  | cons a t => simp [List.dropWhile_cons, hl a (by simp)]

theorem stripChars_of_no_space (cs : List Char)
    (h : ∀ c ∈ cs, pyIsSpace c = false) : stripChars cs = cs := by
  unfold stripChars
  rw [dropWhile_of_no_space cs h,
    dropWhile_of_no_space cs.reverse (fun c hc => h c (List.mem_reverse.mp hc)),
    List.reverse_reverse]

theorem pyDigitsRest_digits (ds : List Char) (acc : Nat)
    (h : ∀ c ∈ ds, isAsciiDigit c = true) :
    pyDigitsRest ds acc =
      some (ds.foldl (fun a c => a * 10 + digitVal c) acc) := by
  induction ds generalizing acc with
  | nil => rfl
  | cons c rest ih =>
      have hc : isAsciiDigit c = true := h c (by simp)
      have hne : ¬(c = '_') := by
        intro he
        rw [he] at hc
        exact absurd hc (by decide)
      rw [List.foldl_cons]
      rw [pyDigitsRest.eq_def]
      simp only []
      rw [if_neg hne, if_pos hc]
      exact ih _ (fun x hx => h x (by simp [hx]))

theorem pyDigits_digits (ds : List Char) (hne : ds ≠ [])
    (h : ∀ c ∈ ds, isAsciiDigit c = true) :
    pyDigits ds = some (decValue ds) := by
  cases ds with
  | nil => exact absurd rfl hne
  | cons c rest =>
      have hc : isAsciiDigit c = true := h c (by simp)
      simp [pyDigits, hc,
        pyDigitsRest_digits rest (digitVal c) (fun x hx => h x (by simp [hx])),
        decValue]

theorem digitVal_lt_10 (c : Char) (h : isAsciiDigit c = true) : digitVal c < 10 := by
  simp only [isAsciiDigit, Bool.and_eq_true, decide_eq_true_eq] at h
  unfold digitVal
  omega

theorem digitChar_digitVal (c : Char) (h : isAsciiDigit c = true) :
    digitChar (digitVal c) = c := by
  simp only [isAsciiDigit, Bool.and_eq_true, decide_eq_true_eq] at h
  unfold digitChar digitVal
  have he : 48 + (c.toNat - 48) = c.toNat := by omega
  rw [he, Char.ofNat_toNat]

theorem isAsciiDigit_digitChar (n : Nat) (h : n < 10) :
    isAsciiDigit (digitChar n) = true := by
  interval_cases n <;> decide

theorem digit_ne_slash (c : Char) (h : isAsciiDigit c = true) : ¬(c = '/') := by
  intro he
  rw [he] at h
  exact absurd h (by decide)

theorem natDecChars_one (f n : Nat) (hn : n < 10) (hf : 1 ≤ f) :
    natDecChars f n = [digitChar n] := by
  obtain ⟨k, rfl⟩ : ∃ k, f = k + 1 := ⟨f - 1, by omega⟩
  simp [natDecChars, hn]

theorem natDecChars_two (f n : Nat) (h1 : 10 ≤ n) (h2 : n < 100) (hf : 2 ≤ f) :
    natDecChars f n = [digitChar (n / 10), digitChar (n % 10)] := by
  obtain ⟨k, rfl⟩ : ∃ k, f = k + 2 := ⟨f - 2, by omega⟩
  show natDecChars (k + 1 + 1) n = _
  simp only [natDecChars]
  rw [if_neg (show ¬(n < 10) by omega), if_pos (show n / 10 < 10 by omega)]
  rfl

theorem natDecChars_three (f n : Nat) (h1 : 100 ≤ n) (h2 : n < 1000) (hf : 3 ≤ f) :
    natDecChars f n =
      [digitChar (n / 100), digitChar (n / 10 % 10), digitChar (n % 10)] := by
  obtain ⟨k, rfl⟩ : ∃ k, f = k + 3 := ⟨f - 3, by omega⟩
  show natDecChars (k + 2 + 1) n = _
  simp only [natDecChars]
  rw [if_neg (show ¬(n < 10) by omega), if_neg (show ¬(n / 10 < 10) by omega),
    if_pos (show n / 10 / 10 < 10 by omega),
    show n / 10 / 10 = n / 100 by omega]
  rfl

theorem natDecChars_four (f n : Nat) (h1 : 1000 ≤ n) (h2 : n < 10000) (hf : 4 ≤ f) :
    natDecChars f n = [digitChar (n / 1000), digitChar (n / 100 % 10),
      digitChar (n / 10 % 10), digitChar (n % 10)] := by
  obtain ⟨k, rfl⟩ : ∃ k, f = k + 4 := ⟨f - 4, by omega⟩
  show natDecChars (k + 3 + 1) n = _
  simp only [natDecChars]
  rw [if_neg (show ¬(n < 10) by omega), if_neg (show ¬(n / 10 < 10) by omega),
    if_neg (show ¬(n / 10 / 10 < 10) by omega),
    if_pos (show n / 10 / 10 / 10 < 10 by omega),
    show n / 10 / 10 / 10 = n / 1000 by omega,
    show n / 10 / 10 % 10 = n / 100 % 10 by omega]
  rfl

theorem pad2_eq (n : Nat) (h : n < 100) :
    pad2 n = [digitChar (n / 10), digitChar (n % 10)] := by
  unfold pad2
  by_cases h10 : n < 10
  · rw [if_pos h10]
    have e1 : n / 10 = 0 := by omega
    have e2 : n % 10 = n := by omega
    rw [e1, e2, show digitChar 0 = '0' from by decide]
  · rw [if_neg h10]
    exact natDecChars_two (n + 1) n (by omega) h (by omega)

theorem splitSlash_no_slash (l : List Char) (h : ∀ c ∈ l, ¬(c = '/')) :
    splitSlash l = [l] := by
  induction l with
  | nil => rfl
  | cons c rest ih =>
      simp only [splitSlash]
      rw [if_neg (h c (by simp)), ih (fun x hx => h x (by simp [hx]))]

theorem splitSlash_append (l1 : List Char) (h : ∀ c ∈ l1, ¬(c = '/'))
    (rest : List Char) :
    splitSlash (l1 ++ '/' :: rest) = l1 :: splitSlash rest := by
  induction l1 with
  | nil => simp [splitSlash]
  | cons c t ih =>
      have ih2 := ih (fun x hx => h x (by simp [hx]))
      simp only [List.cons_append, splitSlash]
      rw [if_neg (h c (by simp)),
        show splitSlash (t.append ('/' :: rest)) = t :: splitSlash rest from ih2]

theorem isDigit19_digitVal (c : Char) (h : isDigit19 c = true) :
    1 ≤ digitVal c ∧ digitVal c ≤ 9 := by
  simp only [isDigit19, Bool.and_eq_true, decide_eq_true_eq] at h
  unfold digitVal
  omega

theorem dayVal_bounds (l : List Char) (d : Nat) (h : dayVal l = some d) :
    1 ≤ d ∧ d ≤ 31 := by
  match l with
  | [] => exact absurd h (by simp [dayVal])
  | [a] =>
      rw [dayVal] at h
      split_ifs at h with h1
      all_goals try exact Option.noConfusion h
      injection h with h
      have := isDigit19_digitVal a h1
      omega
  | [a, b] =>
      rw [dayVal] at h
      split_ifs at h with h1 h2 h3 h4 h5
      all_goals try exact Option.noConfusion h
      · injection h with h
        simp only [Bool.or_eq_true, decide_eq_true_eq] at h2
        have hb : digitVal b ≤ 1 := by
          rcases h2 with h2 | h2 <;> subst h2 <;> decide
        omega
      · injection h with h
        simp only [Bool.and_eq_true, Bool.or_eq_true, decide_eq_true_eq,
          isAsciiDigit] at h3
        obtain ⟨h3a, h3b⟩ := h3
        have ha : 1 ≤ digitVal a ∧ digitVal a ≤ 2 := by
          rcases h3a with h3a | h3a <;> subst h3a <;> decide
        have hb : digitVal b ≤ 9 := by unfold digitVal; omega
        omega
      · injection h with h
        simp only [Bool.and_eq_true, decide_eq_true_eq] at h4
        have := isDigit19_digitVal b h4.2
        omega
      · injection h with h
        simp only [Bool.and_eq_true, decide_eq_true_eq] at h5
        have := isDigit19_digitVal b h5.2
        omega
  | _ :: _ :: _ :: _ => exact absurd h (by simp [dayVal])

theorem monthVal_bounds (l : List Char) (m : Nat) (h : monthVal l = some m) :
    1 ≤ m ∧ m ≤ 12 := by
  match l with
  | [] => exact absurd h (by simp [monthVal])
  | [a] =>
      rw [monthVal] at h
      split_ifs at h with h1
      all_goals try exact Option.noConfusion h
      injection h with h
      have := isDigit19_digitVal a h1
      omega
  | [a, b] =>
      rw [monthVal] at h
      split_ifs at h with h1 h2 h3
      all_goals try exact Option.noConfusion h
      · injection h with h
        simp only [Bool.or_eq_true, decide_eq_true_eq] at h2
        have hb : digitVal b ≤ 2 := by
          rcases h2 with (h2 | h2) | h2 <;> subst h2 <;> decide
        omega
      · injection h with h
        simp only [Bool.and_eq_true, decide_eq_true_eq] at h3
        have := isDigit19_digitVal b h3.2
        omega
  | _ :: _ :: _ :: _ => exact absurd h (by simp [monthVal])

theorem yearVal_bounds (l : List Char) (y : Nat) (h : yearVal l = some y) :
    y ≤ 9999 := by
  match l with
  | [] => exact absurd h (by simp [yearVal])
  | [_] => exact absurd h (by simp [yearVal])
  | [_, _] => exact absurd h (by simp [yearVal])
  | [_, _, _] => exact absurd h (by simp [yearVal])
  | [a, b, c, d] =>
      rw [yearVal] at h
      split_ifs at h with h1
      all_goals try exact Option.noConfusion h
      injection h with h
      simp only [Bool.and_eq_true, isAsciiDigit, decide_eq_true_eq] at h1
      unfold digitVal at h
      omega
  | _ :: _ :: _ :: _ :: _ :: _ => exact absurd h (by simp [yearVal])

theorem dayVal_pad2 (a b : Char) (ha : isAsciiDigit a = true)
    (hb : isAsciiDigit b = true) (d : Nat) (h : dayVal [a, b] = some d) :
    pad2 d = [a, b] := by
  rw [dayVal] at h
  split_ifs at h with h1 h2 h3 h4 h5
  all_goals try exact Option.noConfusion h
  · injection h with h
    subst h1
    simp only [Bool.or_eq_true, decide_eq_true_eq] at h2
    have hb1 : digitVal b ≤ 1 := by
      rcases h2 with h2 | h2 <;> subst h2 <;> decide
    rw [pad2_eq d (by omega), show d / 10 = 3 by omega,
      show d % 10 = digitVal b by omega, digitChar_digitVal b hb,
      show digitChar 3 = '3' from by decide]
  · injection h with h
    simp only [Bool.and_eq_true, Bool.or_eq_true, decide_eq_true_eq] at h3
    have ha2 : 1 ≤ digitVal a ∧ digitVal a ≤ 2 := by
      rcases h3.1 with h' | h' <;> subst h' <;> decide
    have hbv := digitVal_lt_10 b hb
    rw [pad2_eq d (by omega), show d / 10 = digitVal a by omega,
      show d % 10 = digitVal b by omega, digitChar_digitVal a ha,
      digitChar_digitVal b hb]
  · injection h with h
    simp only [Bool.and_eq_true, decide_eq_true_eq] at h4
    have hb9 := isDigit19_digitVal b h4.2
    rw [pad2_eq d (by omega), show d / 10 = 0 by omega,
      show d % 10 = digitVal b by omega, digitChar_digitVal b hb,
      show digitChar 0 = '0' from by decide, h4.1]
  · exfalso
    simp only [Bool.and_eq_true, decide_eq_true_eq] at h5
    rw [h5.1] at ha
    exact absurd ha (by decide)

theorem monthVal_pad2 (a b : Char) (ha : isAsciiDigit a = true)
    (hb : isAsciiDigit b = true) (m : Nat) (h : monthVal [a, b] = some m) :
    pad2 m = [a, b] := by
  rw [monthVal] at h
  split_ifs at h with h1 h2 h3
  all_goals try exact Option.noConfusion h
  · injection h with h
    subst h1
    simp only [Bool.or_eq_true, decide_eq_true_eq] at h2
    have hb2 : digitVal b ≤ 2 := by
      rcases h2 with (h2 | h2) | h2 <;> subst h2 <;> decide
    rw [pad2_eq m (by omega), show m / 10 = 1 by omega,
      show m % 10 = digitVal b by omega, digitChar_digitVal b hb,
      show digitChar 1 = '1' from by decide]
  · injection h with h
    simp only [Bool.and_eq_true, decide_eq_true_eq] at h3
    have hb9 := isDigit19_digitVal b h3.2
    rw [pad2_eq m (by omega), show m / 10 = 0 by omega,
      show m % 10 = digitVal b by omega, digitChar_digitVal b hb,
      show digitChar 0 = '0' from by decide, h3.1]

theorem yearVal_fmtYear (a b c d : Char) (y : Nat)
    (h : yearVal [a, b, c, d] = some y) (hy : 1000 ≤ y) :
    fmtYear y = [a, b, c, d] := by
  rw [yearVal] at h
  split_ifs at h with h1
  all_goals try exact Option.noConfusion h
  injection h with h
  simp only [Bool.and_eq_true] at h1
  obtain ⟨⟨⟨ha, hb⟩, hc⟩, hd⟩ := h1
  have hav := digitVal_lt_10 a ha
  have hbv := digitVal_lt_10 b hb
  have hcv := digitVal_lt_10 c hc
  have hdv := digitVal_lt_10 d hd
  unfold fmtYear
  rw [natDecChars_four (y + 1) y hy (by omega) (by omega),
    show y / 1000 = digitVal a by omega, show y / 100 % 10 = digitVal b by omega,
    show y / 10 % 10 = digitVal c by omega, show y % 10 = digitVal d by omega,
    digitChar_digitVal a ha, digitChar_digitVal b hb, digitChar_digitVal c hc,
    digitChar_digitVal d hd]

theorem strptimeDMY_some_parts (cs : List Char) (d m y : Nat)
    (h : strptimeDMY cs = some (d, m, y)) :
    ∃ A B C, splitSlash cs = [A, B, C] ∧ dayVal A = some d ∧
      monthVal B = some m ∧ yearVal C = some y := by
  unfold strptimeDMY at h
  rcases hsp : splitSlash cs with _ | ⟨A, _ | ⟨B, _ | ⟨C, _ | ⟨D, rest⟩⟩⟩⟩ <;>
    rw [hsp] at h
  · exact Option.noConfusion h
  · exact Option.noConfusion h
  · exact Option.noConfusion h
  · have h2 : (match dayVal A, monthVal B, yearVal C with
        | some d2, some m2, some y2 => some (d2, m2, y2)
        | _, _, _ => none) = some (d, m, y) := h
    cases hd : dayVal A <;> rw [hd] at h2
    · exact Option.noConfusion h2
    · cases hm : monthVal B <;> rw [hm] at h2
      · exact Option.noConfusion h2
      · cases hy : yearVal C <;> rw [hy] at h2
        · exact Option.noConfusion h2
        · injection h2 with h2
          obtain ⟨e1, e2, e3⟩ : _ ∧ _ ∧ _ := by
            simpa [Prod.ext_iff] using h2
          subst e1; subst e2; subst e3
          exact ⟨A, B, C, rfl, hd, hm, hy⟩
  · exact Option.noConfusion h

theorem strptimeDMY_bounds (cs : List Char) (d m y : Nat)
    (h : strptimeDMY cs = some (d, m, y)) :
    1 ≤ d ∧ d ≤ 31 ∧ 1 ≤ m ∧ m ≤ 12 ∧ y ≤ 9999 := by
  obtain ⟨A, B, C, _, hd, hm, hy⟩ := strptimeDMY_some_parts cs d m y h
  obtain ⟨hd1, hd2⟩ := dayVal_bounds A d hd
  obtain ⟨hm1, hm2⟩ := monthVal_bounds B m hm
  exact ⟨hd1, hd2, hm1, hm2, yearVal_bounds C y hy⟩

theorem splitSlash_pattern (x0 x1 y0 y1 z0 z1 z2 z3 : Char)
    (hx0 : isAsciiDigit x0 = true) (hx1 : isAsciiDigit x1 = true)
    (hy0 : isAsciiDigit y0 = true) (hy1 : isAsciiDigit y1 = true)
    (hz0 : isAsciiDigit z0 = true) (hz1 : isAsciiDigit z1 = true)
    (hz2 : isAsciiDigit z2 = true) (hz3 : isAsciiDigit z3 = true) :
    splitSlash [x0, x1, '/', y0, y1, '/', z0, z1, z2, z3] =
      [[x0, x1], [y0, y1], [z0, z1, z2, z3]] := by
  have e1 : [x0, x1, '/', y0, y1, '/', z0, z1, z2, z3] =
      [x0, x1] ++ '/' :: ([y0, y1] ++ '/' :: [z0, z1, z2, z3]) := rfl
  rw [e1,
    splitSlash_append [x0, x1] (by
      intro c hc
      simp only [List.mem_cons, List.not_mem_nil, or_false] at hc
      rcases hc with rfl | rfl
      exacts [digit_ne_slash _ hx0, digit_ne_slash _ hx1]) _,
    splitSlash_append [y0, y1] (by
      intro c hc
      simp only [List.mem_cons, List.not_mem_nil, or_false] at hc
      rcases hc with rfl | rfl
      exacts [digit_ne_slash _ hy0, digit_ne_slash _ hy1]) _,
    splitSlash_no_slash [z0, z1, z2, z3] (by
      intro c hc
      simp only [List.mem_cons, List.not_mem_nil, or_false] at hc
      rcases hc with rfl | rfl | rfl | rfl
      exacts [digit_ne_slash _ hz0, digit_ne_slash _ hz1,
        digit_ne_slash _ hz2, digit_ne_slash _ hz3])]

theorem specMatches_shape (s : String) (h : specMatchesDDMMYYYY s = true) :
    ∃ x0 x1 y0 y1 z0 z1 z2 z3,
      s.data = [x0, x1, '/', y0, y1, '/', z0, z1, z2, z3] ∧
      isAsciiDigit x0 = true ∧ isAsciiDigit x1 = true ∧
      isAsciiDigit y0 = true ∧ isAsciiDigit y1 = true ∧
      isAsciiDigit z0 = true ∧ isAsciiDigit z1 = true ∧
      isAsciiDigit z2 = true ∧ isAsciiDigit z3 = true := by
  unfold specMatchesDDMMYYYY at h
  rcases hs : s.data with _ | ⟨c0, _ | ⟨c1, _ | ⟨c2, _ | ⟨c3, _ | ⟨c4, _ | ⟨c5,
    _ | ⟨c6, _ | ⟨c7, _ | ⟨c8, _ | ⟨c9, _ | ⟨c10, rest⟩⟩⟩⟩⟩⟩⟩⟩⟩⟩⟩ <;> rw [hs] at h
  all_goals try exact Bool.noConfusion h
  simp only [Bool.and_eq_true, decide_eq_true_eq] at h
  obtain ⟨⟨⟨⟨⟨⟨⟨⟨⟨h0, h1⟩, hs1⟩, h2⟩, h3⟩, hs2⟩, h4⟩, h5⟩, h6⟩, h7⟩ := h
  subst hs1; subst hs2
  exact ⟨c0, c1, c3, c4, c6, c7, c8, c9, rfl, h0, h1, h2, h3, h4, h5, h6, h7⟩

theorem formatDMY_of_pattern (x0 x1 y0 y1 z0 z1 z2 z3 : Char) (d m y : Nat)
    (hx0 : isAsciiDigit x0 = true) (hx1 : isAsciiDigit x1 = true)
    (hy0 : isAsciiDigit y0 = true) (hy1 : isAsciiDigit y1 = true)
    (hd : dayVal [x0, x1] = some d) (hm : monthVal [y0, y1] = some m)
    (hy : yearVal [z0, z1, z2, z3] = some y) (hge : 1000 ≤ y) :
    formatDMY d m y = String.mk [x0, x1, '/', y0, y1, '/', z0, z1, z2, z3] := by
  unfold formatDMY
  rw [dayVal_pad2 x0 x1 hx0 hx1 d hd, monthVal_pad2 y0 y1 hy0 hy1 m hm,
    yearVal_fmtYear z0 z1 z2 z3 y hy hge]
  rfl

theorem formatDMY_matches (d m y : Nat) (hd1 : 1 ≤ d) (hd2 : d ≤ 31)
    (hm1 : 1 ≤ m) (hm2 : m ≤ 12) (hy1 : 1000 ≤ y) (hy2 : y ≤ 9999) :
    specMatchesDDMMYYYY (formatDMY d m y) = true := by
  unfold formatDMY fmtYear
  rw [pad2_eq d (by omega), pad2_eq m (by omega),
    natDecChars_four (y + 1) y hy1 (by omega) (by omega)]
  have b1 := isAsciiDigit_digitChar (d / 10) (by omega)
  have b2 := isAsciiDigit_digitChar (d % 10) (by omega)
  have b3 := isAsciiDigit_digitChar (m / 10) (by omega)
  have b4 := isAsciiDigit_digitChar (m % 10) (by omega)
  have b5 := isAsciiDigit_digitChar (y / 1000) (by omega)
  have b6 := isAsciiDigit_digitChar (y / 100 % 10) (by omega)
  have b7 := isAsciiDigit_digitChar (y / 10 % 10) (by omega)
  have b8 := isAsciiDigit_digitChar (y % 10) (by omega)
  simp [specMatchesDDMMYYYY, b1, b2, b3, b4, b5, b6, b7, b8]

/-! ## Claim theorems (structural claims) -/

/-- C3: `carregar` produces exactly one output document per input data
record, in input order: the document list has the same length as the row
list, and its `i`-th entry is the transformation of the `i`-th row. -/
theorem carregar_one_doc_per_record (g : Nat → String) (cn : String)
    (rows : List Row) :
    (carregar_docs g cn 0 rows).length = rows.length ∧
    ∀ i : Nat, (carregar_docs g cn 0 rows)[i]? =
      (rows[i]?).map (fun row => transformRow (g i) cn row) := by
  refine ⟨carregar_docs_length g cn 0 rows, fun i => ?_⟩
  simpa using carregar_docs_getElem g cn 0 rows i

/-- C4: every emitted document has exactly the key list
`[cedente, pagador, valor, vencimento]` (all values are `String` by the type
of `Doc`), for every input row; in particular no `_id` and no `_class` key
is emitted. -/
theorem doc_fixed_keys (oid_hex class_name : String) (row : Row) :
    (transformRow oid_hex class_name row).map Prod.fst =
      ["cedente", "pagador", "valor", "vencimento"] ∧
    "_id" ∉ (transformRow oid_hex class_name row).map Prod.fst ∧
    "_class" ∉ (transformRow oid_hex class_name row).map Prod.fst := by
  have hk : (transformRow oid_hex class_name row).map Prod.fst =
      ["cedente", "pagador", "valor", "vencimento"] := rfl
  refine ⟨hk, ?_, ?_⟩ <;> rw [hk] <;> decide

/-- C6: the delimiter selection of `carregar` never fails and always yields
a candidate delimiter: whenever the sniffer obeys the `csv.Sniffer.sniff`
contract for an explicit `delimiters` list (a successful sniff returns a
member of the list), the selected delimiter is in the candidate set, and on
any sniffer error the tab default is selected. -/
theorem sniffer_fallback (sniff : String → Except String Char)
    (h : ∀ s c, sniff s = Except.ok c → c ∈ candidateDelims) (sample : String) :
    detect_delimiter sniff sample ∈ candidateDelims ∧
    (∀ e, sniff sample = Except.error e → detect_delimiter sniff sample = '\t') := by
  cases hs : sniff sample with
  | ok c =>
      refine ⟨?_, ?_⟩
      · simpa [detect_delimiter, hs] using h sample c hs
      · intro e he
        exact absurd he (by simp)
  | error e => refine ⟨?_, ?_⟩ <;> simp [detect_delimiter, hs, candidateDelims]

/-- Witness for C6 at a concrete failing sniffer. -/
theorem sniffer_fallback_witness :
    detect_delimiter (fun _ => Except.error "Could not determine delimiter") "abc" = '\t' ∧
    detect_delimiter (fun _ => Except.error "Could not determine delimiter") "abc" ∈
      candidateDelims := by
  have h := sniffer_fallback (fun _ => Except.error "Could not determine delimiter")
    (by intro s c hc; exact absurd hc (by simp)) "abc"
  exact ⟨h.2 "Could not determine delimiter" rfl, h.1⟩

/-- C7: when the input path does not exist, the run exits with code 2, the
single printed message reports the path, and nothing is written. -/
theorem missing_input_exit2 (env : Env) (argv : List String) (i o c : String)
    (hp : parseArgs argv = some (i, o, c)) (hne : env.pathExists i = false) :
    mainRun env argv = ⟨2, ["Arquivo não encontrado: " ++ i], []⟩ := by
  simp [mainRun, hp, carregar_run, hne, fileNotFoundMsg]

/-- Witness for C7 at a concrete environment and argument list. -/
theorem missing_input_exit2_witness :
    mainRun ⟨fun _ => false, fun _ => Except.ok [], fun _ => Except.ok (), fun _ => ""⟩
      ["prog", "in.csv", "out.json"] =
      ⟨2, ["Arquivo não encontrado: in.csv"], []⟩ :=
  missing_input_exit2 _ _ "in.csv" "out.json" DEFAULT_CLASS rfl rfl

/-- C8: the classification label has no effect: two runs differing only in
the third positional argument produce identical outcomes, and at every
stage the document lists and their serializations agree. -/
theorem class_label_no_effect (env : Env) (p i o c1 c2 : String) :
    mainRun env [p, i, o, c1] = mainRun env [p, i, o, c2] ∧
    ∀ (g : Nat → String) (k : Nat) (rows : List Row),
      carregar_docs g c1 k rows = carregar_docs g c2 k rows ∧
      pyJsonDump (carregar_docs g c1 k rows) =
        pyJsonDump (carregar_docs g c2 k rows) := by
  refine ⟨mainRun_class_congr env p i o c1 c2, fun g k rows => ?_⟩
  have h := carregar_docs_congr g g c1 c2 k rows
  exact ⟨h, by rw [h]⟩

/-- C10: the run outcome, the document list and its serialization are
independent of the values produced by `make_objectid_hex` (modelled by
`oidGen`): the generated identifiers are discarded. -/
theorem output_independent_of_oid (pe : String → Bool)
    (rr : String → Except PyError (List Row)) (wr : String → Except PyError Unit)
    (g1 g2 : Nat → String) (argv : List String) (cn : String) (k : Nat)
    (rows : List Row) :
    mainRun ⟨pe, rr, wr, g1⟩ argv = mainRun ⟨pe, rr, wr, g2⟩ argv ∧
    carregar_docs g1 cn k rows = carregar_docs g2 cn k rows ∧
    pyJsonDump (carregar_docs g1 cn k rows) =
      pyJsonDump (carregar_docs g2 cn k rows) := by
  refine ⟨mainRun_congr pe rr wr g1 g2 argv, ?_, ?_⟩
  · exact carregar_docs_congr g1 g2 cn cn k rows
  · rw [carregar_docs_congr g1 g2 cn cn k rows]

/-- Environment refuting the "exit 2 only if input not found" direction of
C2: the input exists and is readable, but opening the output path raises
`FileNotFoundError` (as CPython `open(path, "w")` does when the parent
directory does not exist), which the same `except FileNotFoundError`
handler maps to exit code 2. -/
def envOutputDirMissing : Env :=
  ⟨fun _ => true, fun _ => Except.ok [],
   fun _ => Except.error (PyError.fileNotFound
     "[Errno 2] No such file or directory: 'no_dir/out.json'"),
   fun _ => ""⟩

/-- Counterexample to C2 as stated: a run whose input file exists still
exits with code 2 (the output write raised `FileNotFoundError`). -/
theorem exit2_without_missing_input :
    (mainRun envOutputDirMissing ["prog", "in.csv", "no_dir/out.json"]).exitCode = 2 ∧
    envOutputDirMissing.pathExists "in.csv" = true := by
  constructor <;> rfl

/-- C2 (amended): exit code 1 exactly on a bad argument count (with the
usage message printed and nothing read or written); exit code 2 exactly
when a `FileNotFoundError` is raised — the input file not existing, or the
output write itself raising `FileNotFoundError`; exit code 3 exactly on any
other error; exit code 0 exactly on success with the full output written. -/
theorem main_exit_codes (env : Env) (argv : List String) :
    ((mainRun env argv).exitCode = 1 ↔ parseArgs argv = none) ∧
    (parseArgs argv = none ↔
      ¬(argv.length = 1 ∨ argv.length = 3 ∨ argv.length = 4)) ∧
    (parseArgs argv = none → mainRun env argv = ⟨1, usageLines, []⟩) ∧
    (∀ i o c, parseArgs argv = some (i, o, c) →
      (((mainRun env argv).exitCode = 2) ↔
        ((∃ m, carregar_run env i c = Except.error (PyError.fileNotFound m)) ∨
         (∃ docs, carregar_run env i c = Except.ok docs ∧
           ∃ m, env.writeResult o = Except.error (PyError.fileNotFound m)))) ∧
      (((mainRun env argv).exitCode = 3) ↔
        ((∃ m, carregar_run env i c = Except.error (PyError.other m)) ∨
         (∃ docs, carregar_run env i c = Except.ok docs ∧
           ∃ m, env.writeResult o = Except.error (PyError.other m)))) ∧
      (((mainRun env argv).exitCode = 0) ↔
        (∃ docs, carregar_run env i c = Except.ok docs ∧
          env.writeResult o = Except.ok () ∧
          (mainRun env argv).written = [(o, docs)])) ∧
      (env.pathExists i = false → (mainRun env argv).exitCode = 2)) := by
  cases hp : parseArgs argv with
  | none =>
      have hm : mainRun env argv = ⟨1, usageLines, []⟩ := by simp [mainRun, hp]
      refine ⟨by simp [hm], by simpa using (parseArgs_none_iff argv).mp hp,
        fun _ => hm, fun i o c hc => ?_⟩
      cases hc
  | some t =>
      obtain ⟨i0, o0, c0⟩ := t
      refine ⟨?_, ?_, fun hn => ?_, fun i o c hc => ?_⟩
      · rw [mainRun_eq_of_some env argv i0 o0 c0 hp]
        cases hcr : carregar_run env i0 c0 with
        | error e => cases e <;> simp
        | ok lista => cases hw : env.writeResult o0 with
          | error e => cases e <;> simp
          | ok u => simp
      · constructor
        · intro h
          cases h
        · intro hn
          have h2 := (parseArgs_none_iff argv).mpr hn
          rw [hp] at h2
          cases h2
      · cases hn
      · cases hc
        rw [mainRun_eq_of_some env argv i0 o0 c0 hp]
        cases hcr : carregar_run env i0 c0 with
        | error e =>
            cases e with
            | fileNotFound m =>
                refine ⟨by simp, by simp, by simp, fun hne => by simp⟩
            | other m =>
                refine ⟨by simp, by simp, by simp, fun hne => ?_⟩
                have h2 := carregar_run_not_exists env i0 c0 hne
                rw [hcr] at h2
                cases h2
        | ok lista =>
            have hok : ∀ hne : env.pathExists i0 = false, False := by
              intro hne
              have h2 := carregar_run_not_exists env i0 c0 hne
              rw [hcr] at h2
              cases h2
            cases hw : env.writeResult o0 with
            | error e =>
                cases e with
                | fileNotFound m =>
                    exact ⟨by simp [hcr, hw], by simp [hcr, hw],
                      by simp [hcr, hw], fun hne => by simp⟩
                | other m =>
                    exact ⟨by simp [hcr, hw], by simp [hcr, hw],
                      by simp [hcr, hw], fun hne => absurd hne (fun h => hok h)⟩
            | ok u =>
                exact ⟨by simp [hcr, hw], by simp [hcr, hw],
                  by simp [hcr, hw], fun hne => absurd hne (fun h => hok h)⟩

/-- Witness for C2 at a concrete bad argument count. -/
theorem main_exit_codes_witness :
    mainRun ⟨fun _ => true, fun _ => Except.ok [], fun _ => Except.ok (), fun _ => ""⟩
      ["p", "x"] = ⟨1, usageLines, []⟩ :=
  (main_exit_codes
    ⟨fun _ => true, fun _ => Except.ok [], fun _ => Except.ok (), fun _ => ""⟩
    ["p", "x"]).2.2.1 rfl

/-- C5: `parse_int` never fails: empty (after trimming) input yields the
supplied default, unparseable input yields the default, all-digit numeric
text (optionally signed in `pyIntOfString`) yields the base-10 value; and in
the active mapping `local["numero"]` applies it (default 0) to the same raw
`valor` field stored verbatim as the amount string. -/
theorem parse_int_spec (v : String) (dflt : Int) :
    (pyStrip v = "" → parse_int v dflt = dflt) ∧
    (pyIntOfString (pyStrip v) = none → parse_int v dflt = dflt) ∧
    (∀ n : Int, pyStrip v ≠ "" → pyIntOfString (pyStrip v) = some n →
      parse_int v dflt = n) ∧
    (∀ ds : List Char, ds ≠ [] → (∀ c ∈ ds, isAsciiDigit c = true) →
      parse_int (String.mk ds) dflt = Int.ofNat (decValue ds)) ∧
    (∀ row : Row, (localOf row).numero = parse_int (rowGet row "valor") 0 ∧
      (localOf row).valor = rowGet row "valor") := by
  refine ⟨fun h => by simp [parse_int, h], fun h => ?_, fun n hne hsome => ?_,
    fun ds hne hdig => ?_, fun row => ⟨rfl, rfl⟩⟩
  · by_cases he : pyStrip v = ""
    · simp [parse_int, he]
    · simp [parse_int, he, h]
  · simp [parse_int, hne, hsome]
  · have hnospace : ∀ c ∈ ds, pyIsSpace c = false :=
      fun c hc => isAsciiDigit_not_space c (hdig c hc)
    have hstrip : stripChars ds = ds := stripChars_of_no_space ds hnospace
    have hs : pyStrip (String.mk ds) = String.mk ds := by
      simp [pyStrip, hstrip]
    have hsne : (String.mk ds : String) ≠ "" := by
      intro habs
      apply hne
      have := congrArg String.data habs
      simpa using this
    cases ds with
    | nil => exact absurd rfl hne
    | cons c rest =>
        have hc : isAsciiDigit c = true := hdig c (by simp)
        have hcp : ¬(c = '+') := by
          intro he
          rw [he] at hc
          exact absurd hc (by decide)
        have hcm : ¬(c = '-') := by
          intro he
          rw [he] at hc
          exact absurd hc (by decide)
        have hint : pyIntOfString (String.mk (c :: rest)) =
            some (Int.ofNat (decValue (c :: rest))) := by
          simp only [pyIntOfString, String.data]
          rw [hstrip]
          simp [hcp, hcm, pyDigits_digits (c :: rest) hne hdig]
        simp [parse_int, hs, hsne, hint]

/-- Witness for C5 at concrete inputs. -/
theorem parse_int_spec_witness : parse_int "  42  " 7 = 42 :=
  (parse_int_spec "  42  " 7).2.2.1 42 (by decide) (by decide)

/-- Counterexample to C1 as stated: `"5/3/2024"` does not exactly match the
`DD/MM/YYYY` pattern and is nonempty, yet it is parsed and re-rendered as
`"05/03/2024"` (not the empty string); and `"31/02/2024"` exactly matches
the pattern, yet it yields `""` (not the input unchanged). -/
theorem date_roundtrip_counterexample :
    (specMatchesDDMMYYYY "5/3/2024" = false ∧
      pyStrip "5/3/2024" = "5/3/2024" ∧
      parse_date_ddmmyyyy "5/3/2024" = "05/03/2024" ∧
      ("05/03/2024" : String) ≠ "") ∧
    (specMatchesDDMMYYYY "31/02/2024" = true ∧
      parse_date_ddmmyyyy "31/02/2024" = "" ∧
      ("" : String) ≠ "31/02/2024") := by
  refine ⟨⟨?_, ?_, ?_, ?_⟩, ?_, ?_, ?_⟩ <;> decide

/-- C1 (amended): empty after trimming yields `""`; a trimmed value that
fails `strptime("%d/%m/%Y")` (or denotes an invalid calendar date) yields
`""` with no failure propagating; a parseable, calendar-valid value is
re-rendered (zero-padded day and month, unpadded year); and a value exactly
matching `DD/MM/YYYY` that is calendar-valid with year ≥ 1000 is reproduced
unchanged. -/
theorem parse_date_spec (s : String) :
    (pyStrip s = "" → parse_date_ddmmyyyy s = "") ∧
    (strptimeDMY (stripChars s.data) = none → parse_date_ddmmyyyy s = "") ∧
    (∀ d m y, strptimeDMY (stripChars s.data) = some (d, m, y) →
      dateValid y m d = false → parse_date_ddmmyyyy s = "") ∧
    (∀ d m y, strptimeDMY (stripChars s.data) = some (d, m, y) →
      dateValid y m d = true → parse_date_ddmmyyyy s = formatDMY d m y) ∧
    (∀ d m y, strptimeDMY (stripChars s.data) = some (d, m, y) →
      dateValid y m d = true → specMatchesDDMMYYYY (pyStrip s) = true →
      1000 ≤ y → parse_date_ddmmyyyy s = pyStrip s) := by
  refine ⟨fun h => ?_, fun h => ?_, fun d m y hs hv => ?_, fun d m y hs hv => ?_,
    fun d m y hs hv hmatch hge => ?_⟩
  · have hv : stripChars s.data = [] := by
      have h2 := congrArg String.data h
      simpa [pyStrip] using h2
    simp [parse_date_ddmmyyyy, hv]
  · by_cases hv : stripChars s.data = [] <;> simp [parse_date_ddmmyyyy, h, hv]
  · have hne : stripChars s.data ≠ [] := by
      intro he
      rw [he] at hs
      exact Option.noConfusion hs
    simp [parse_date_ddmmyyyy, hne, hs, hv]
  · have hne : stripChars s.data ≠ [] := by
      intro he
      rw [he] at hs
      exact Option.noConfusion hs
    simp [parse_date_ddmmyyyy, hne, hs, hv]
  · obtain ⟨x0, x1, y0, y1, z0, z1, z2, z3, hdata, h0, h1, h2, h3, h4, h5,
      h6, h7⟩ := specMatches_shape (pyStrip s) hmatch
    have hdata2 : stripChars s.data = [x0, x1, '/', y0, y1, '/', z0, z1, z2, z3] :=
      hdata
    obtain ⟨A, B, C, hsp, hdA, hmB, hyC⟩ := strptimeDMY_some_parts _ d m y hs
    rw [hdata2, splitSlash_pattern x0 x1 y0 y1 z0 z1 z2 z3 h0 h1 h2 h3 h4 h5 h6 h7]
      at hsp
    obtain ⟨e1, e2, e3⟩ : [x0, x1] = A ∧ [y0, y1] = B ∧ [z0, z1, z2, z3] = C := by
      simpa using hsp
    subst e1; subst e2; subst e3
    have hfmt := formatDMY_of_pattern x0 x1 y0 y1 z0 z1 z2 z3 d m y
      h0 h1 h2 h3 hdA hmB hyC hge
    have hne : stripChars s.data ≠ [] := by rw [hdata2]; simp
    have hp : parse_date_ddmmyyyy s = formatDMY d m y := by
      simp [parse_date_ddmmyyyy, hne, hs, hv]
    rw [hp, hfmt]
    show _ = pyStrip s
    unfold pyStrip
    rw [hdata2]

/-- Witness for C1 at a concrete exactly-matching input. -/
theorem parse_date_spec_witness :
    parse_date_ddmmyyyy "15/03/2024" = pyStrip "15/03/2024" :=
  (parse_date_spec "15/03/2024").2.2.2.2 15 3 2024 (by decide) (by decide)
    (by decide) (by decide)

/-- Counterexample to C9 as stated: the calendar-valid input `"01/01/0123"`
produces `"01/01/123"`, which is neither empty nor of the zero-padded
`DD/MM/YYYY` shape (glibc `strftime` renders `%Y` unpadded). -/
theorem vencimento_not_always_ddmmyyyy :
    parse_date_ddmmyyyy "01/01/0123" = "01/01/123" ∧
    parse_date_ddmmyyyy "01/01/0123" ≠ "" ∧
    specMatchesDDMMYYYY (parse_date_ddmmyyyy "01/01/0123") = false := by
  refine ⟨?_, ?_, ?_⟩ <;> decide

/-- C9 (amended): the emitted `vencimento` field is always either `""` or
the rendering of a calendar-valid parsed date with zero-padded day and
month and unpadded year — which is exactly the `DD/MM/YYYY` shape whenever
the year is ≥ 1000; non-zero-padded valid inputs are accepted and
normalized (e.g. `"5/3/2024"` becomes `"05/03/2024"`) rather than rejected. -/
theorem vencimento_invariant (oid cn : String) (row : Row) :
    (transformRow oid cn row).lookup "vencimento" =
      some (parse_date_ddmmyyyy (rowGet row "vencimento")) ∧
    (∀ s : String, parse_date_ddmmyyyy s = "" ∨
      ∃ d m y, strptimeDMY (stripChars s.data) = some (d, m, y) ∧
        dateValid y m d = true ∧
        parse_date_ddmmyyyy s = formatDMY d m y ∧
        (1000 ≤ y → specMatchesDDMMYYYY (formatDMY d m y) = true)) ∧
    parse_date_ddmmyyyy "5/3/2024" = "05/03/2024" := by
  refine ⟨rfl, fun s => ?_, by decide⟩
  by_cases hv : stripChars s.data = []
  · left
    simp [parse_date_ddmmyyyy, hv]
  · cases hs : strptimeDMY (stripChars s.data) with
    | none => left; simp [parse_date_ddmmyyyy, hv, hs]
    | some t =>
        obtain ⟨d, m, y⟩ := t
        cases hval : dateValid y m d with
        | false => left; simp [parse_date_ddmmyyyy, hv, hs, hval]
        | true =>
            right
            refine ⟨d, m, y, rfl, hval, by simp [parse_date_ddmmyyyy, hv, hs, hval],
              fun hge => ?_⟩
            obtain ⟨hd1, hd2, hm1, hm2, hy2⟩ := strptimeDMY_bounds _ d m y hs
            exact formatDMY_matches d m y hd1 hd2 hm1 hm2 hge hy2

/-- Witness for C9: the invariant applied at a concrete row whose date is
valid but not zero-padded. -/
theorem vencimento_invariant_witness :
    (transformRow "" "" [("vencimento", some "5/3/2024")]).lookup "vencimento" =
      some (parse_date_ddmmyyyy (rowGet [("vencimento", some "5/3/2024")]
        "vencimento")) ∧
    parse_date_ddmmyyyy "5/3/2024" = "05/03/2024" :=
  ⟨(vencimento_invariant "" "" [("vencimento", some "5/3/2024")]).1,
   (vencimento_invariant "" "" [("vencimento", some "5/3/2024")]).2.2⟩
